import Mathlib

/-!
Shallow embedding of `src/py3status_lights/lights.py` (class `Py3status`):
the frame encoder (`_header`, `_frame`), the send operation (`_send_frame`),
the click handler (`on_click`) with its state persistence (`_store_state`),
and the startup state restoration (`post_config_hook`).

Python integers are modelled as `Int`.  Python `int(a / b)` (true division
followed by truncation toward zero) is modelled as `Int.tdiv`, which is exact
for operands below 2^53 — far beyond any realistic LED count.  Python `a % b`
for `b > 0` agrees with Lean's `Int.emod` (the `%` on `Int`).  Python
`range(x)` is empty for `x ≤ 0`, which `List.range x.toNat` reproduces.
-/

namespace Lights

/-- Static configuration of the module (class attributes of `Py3status`,
lines 40-50 of `lights.py`), plus the host-supplied `COLOR_GOOD` constant. -/
structure Config where
  name : String
  host : String
  port : Int
  proto : String
  leds_total : Int
  mode : String
  colors : List String
  COLOR_GOOD : String
deriving DecidableEq

/-- Mutable module state: `self.leds`, `self.color`, `self.color_idx`. -/
structure State where
  leds : Int
  color : String
  color_idx : Int
deriving DecidableEq

/-- `Py3status._header` (lines 158-167): protocol `"drgb"` prepends `"02"`
(protocol id) and `"FF"` (no timeout); every other protocol gives `""`. -/
def header (proto : String) : String :=
  if proto = "drgb" then "" ++ "02" ++ "FF" else ""

/-- Result of `Py3status._frame`: a composed frame string, a bare `return`
(Python `None`, distribute mode with `leds < 1`), or an uncaught
`ZeroDivisionError` (distribute mode, `n % m` with `m = 0`). -/
inductive FrameResult where
  | frame (s : String)
  | noFrame
  | zeroDivisionError
deriving DecidableEq

/-- `Py3status._frame` (lines 169-198).  `start` is
`int((leds_total - leds) / 2)` in mode `"center"` and `0` otherwise; modes
`"center"`/`"default"` light exactly the indices `n` with
`start ≤ n < start + leds`; mode `"distribute"` returns `None` for
`leds < 1` and otherwise lights `n` when `n % m == 1 or m < 2` with
`m = int(leds_total / leds)` — Python evaluates `n % m` first, so `m = 0`
with a non-empty range raises `ZeroDivisionError` on the first iteration.
Any other mode falls through to `return frame` with the bare header. -/
def frameFn (mode proto : String) (leds leds_total : Int) (color : String) :
    FrameResult :=
  let frame := header proto
  let start : Int := if mode = "center" then (leds_total - leds).tdiv 2 else 0
  if mode = "center" ∨ mode = "default" then
    .frame (frame ++ String.join ((List.range leds_total.toNat).map
      (fun n : Nat =>
        if start ≤ (n : Int) ∧ (n : Int) < start + leds then color
        else "000000")))
  else if mode = "distribute" then
    if leds < 1 then .noFrame
    else
      let m : Int := leds_total.tdiv leds
      if m = 0 ∧ 0 < leds_total then .zeroDivisionError
      else
        .frame (frame ++ String.join ((List.range leds_total.toNat).map
          (fun n : Nat =>
            if (n : Int) % m = 1 ∨ m < 2 then color else "000000")))
  else
    .frame frame

/-- One hex digit of `bytes.fromhex` (used by `_send_frame`, line 207). -/
def hexDigit (c : Char) : Option Nat :=
  if '0' ≤ c ∧ c ≤ '9' then some (c.toNat - '0'.toNat)
  else if 'a' ≤ c ∧ c ≤ 'f' then some (c.toNat - 'a'.toNat + 10)
  else if 'A' ≤ c ∧ c ≤ 'F' then some (c.toNat - 'A'.toNat + 10)
  else none

/-- Pairs of hex digits to byte values; `none` models the `ValueError` that
`bytes.fromhex` raises on an odd-length or non-hex string. -/
def hexPairs : List Char → Option (List Nat)
  | [] => some []
  | [_] => none
  | c1 :: c2 :: rest =>
    match hexDigit c1, hexDigit c2, hexPairs rest with
    | some h, some l, some bs => some ((16 * h + l) :: bs)
    | _, _, _ => none

/-- `bytes.fromhex` on a space-free string (the composed frames never
contain spaces). -/
def hexToBytes (s : String) : Option (List Nat) :=
  hexPairs s.data

/-- Observable outcome of `Py3status._send_frame` (lines 200-211):
datagrams actually transmitted, messages logged at `LOG_ERROR`, and whether
an exception escaped the method. -/
structure SendOutcome where
  sent : List (List Nat)
  errorLogs : List String
  raised : Bool
deriving DecidableEq

/-- `Py3status._send_frame` (lines 200-211).  The frame is composed outside
the `try` block, so a `ZeroDivisionError` from `_frame` propagates.  A
`None` frame makes `bytes.fromhex(None)` raise `TypeError` inside the
`try`, which is caught and logged at `LOG_ERROR`; an undecodable hex string
likewise raises `ValueError`, caught and logged.  A successful decode is
transmitted (network failure is environmental and not modelled). -/
def send_frame (cfg : Config) (st : State) : SendOutcome :=
  match frameFn cfg.mode cfg.proto st.leds cfg.leds_total st.color with
  | .zeroDivisionError =>
    { sent := [], errorLogs := [], raised := true }
  | .noFrame =>
    { sent := [], errorLogs := ["Failed to contact light: TypeError"],
      raised := false }
  | .frame s =>
    match hexToBytes s with
    | none =>
      { sent := [], errorLogs := ["Failed to contact light: ValueError"],
        raised := false }
    | some bs =>
      { sent := [bs], errorLogs := [], raised := false }

/-- Whether a `_frame` result is the uncaught `ZeroDivisionError`. -/
def isZeroDiv : FrameResult → Bool
  | .zeroDivisionError => true
  | _ => false

/-- Python list indexing `l[i]`: non-negative indices from the front,
negative indices from the back, `none` is an `IndexError`. -/
def pyIndex (l : List String) (i : Int) : Option String :=
  if 0 ≤ i then l.get? i.toNat
  else if -i ≤ (l.length : Int) then l.get? (l.length - (-i).toNat)
  else none

/-- Python `s.rstrip("\n")`: remove every trailing newline. -/
def rstripNl (s : String) : String :=
  String.mk ((s.data.reverse.dropWhile (fun c => c = '\n')).reverse)

/-- Observable outcome of one `on_click` call: the final attribute values,
the `_send_frame` invocations in order (each recorded as the frame the
encoder computed for it), and whether an exception escaped the handler
(skipping `_store_state`). -/
structure ClickResult where
  state : State
  emits : List FrameResult
  raised : Bool
deriving DecidableEq

/-- The frame `_send_frame` computes from the current attributes
(line 204). -/
def sendFrameCalc (cfg : Config) (st : State) : FrameResult :=
  frameFn cfg.mode cfg.proto st.leds cfg.leds_total st.color

/-- The button-2 loop (lines 109-113): for each line of the color picker's
output, strip trailing newlines into `self.color` and send a frame; an
uncaught error from `_send_frame` aborts the loop. -/
def pickerLoop (cfg : Config) : List String → State →
    State × List FrameResult × Bool
  | [], st => (st, [], false)
  | c :: rest, st =>
    let st1 : State := { st with color := rstripNl c }
    let f := sendFrameCalc cfg st1
    if isZeroDiv f then (st1, [f], true)
    else
      let out := pickerLoop cfg rest st1
      (out.1, f :: out.2.1, out.2.2)

/-- `Py3status.on_click` (lines 93-133), with the color picker's output
lines supplied as `picker` (Python reads them lazily from the external
process; process spawning itself is not modelled). -/
def on_click (cfg : Config) (picker : List String) (st : State)
    (button : Int) : ClickResult :=
  if button = 1 then
    let idx0 := st.color_idx + 1
    let idx := if idx0 > (cfg.colors.length : Int) - 1 then 0 else idx0
    match pyIndex cfg.colors idx with
    | none => { state := { st with color_idx := idx }, emits := [],
                raised := true }
    | some c =>
      let st1 : State := { st with color_idx := idx, color := c }
      let f := sendFrameCalc cfg st1
      { state := st1, emits := [f], raised := isZeroDiv f }
  else if button = 2 then
    let out := pickerLoop cfg picker st
    { state := out.1, emits := out.2.1, raised := out.2.2 }
  else if button = 3 then
    let st1 : State := { st with color := "000000" }
    let f := sendFrameCalc cfg st1
    if isZeroDiv f then { state := st1, emits := [f], raised := true }
    else { state := { st1 with color := cfg.COLOR_GOOD }, emits := [f],
           raised := false }
  else if button = 4 then
    if st.leds < cfg.leds_total then
      let st1 : State := { st with leds := st.leds + 1 }
      let f := sendFrameCalc cfg st1
      { state := st1, emits := [f], raised := isZeroDiv f }
    else { state := st, emits := [], raised := false }
  else if button = 5 then
    if st.leds > 0 then
      let st1 : State := { st with leds := st.leds - 1 }
      let f := sendFrameCalc cfg st1
      { state := st1, emits := [f], raised := isZeroDiv f }
    else { state := st, emits := [], raised := false }
  else
    { state := st, emits := [], raised := false }

/-- `Py3status._store_state` (lines 135-141) as reached from `on_click`
line 133: the `(leds, color, color_idx)` triple written to storage, or
`none` when the handler raised before reaching it. -/
def store_state (r : ClickResult) : Option (Int × String × Int) :=
  if r.raised then none
  else some (r.state.leds, r.state.color, r.state.color_idx)

/-- The `self.leds` restoration of `Py3status.post_config_hook`
(lines 54-63): `storage_get("leds")` followed by `if not self.leds`,
so both an absent key (`None`) and a stored `0` are falsy and replaced by
the initial value `23`. -/
def restore_leds (stored : Option Int) : Int :=
  match stored with
  | none => 23
  | some v => if v = 0 then 23 else v

/-! ### Helper lemmas about joined frame strings -/

theorem join_foldl_data : ∀ (l : List String) (acc : String),
    (l.foldl (fun r s => r ++ s) acc).data =
      acc.data ++ (l.map String.data).flatten := by
  intro l
  induction l with
  | nil => intro acc; simp
  | cons a t ih =>
    intro acc
    simp only [List.foldl_cons, ih, List.map_cons, List.flatten_cons,
      String.data_append, List.append_assoc]

theorem join_data (l : List String) :
    (String.join l).data = (l.map String.data).flatten := by
  have h := join_foldl_data l ""
  simpa [String.join] using h

theorem flatten_length_const (k : Nat) :
    ∀ (l : List String), (∀ x ∈ l, x.length = k) →
      ((l.map String.data).flatten).length = k * l.length := by
  intro l
  induction l with
  | nil => intro _; simp
  | cons a t ih =>
    intro h
    have ha : a.data.length = k := h a (List.mem_cons_self a t)
    have ht : ∀ x ∈ t, x.length = k := fun x hx => h x (List.mem_cons_of_mem a hx)
    simp only [List.map_cons, List.flatten_cons, List.length_append, ha, ih ht,
      List.length_cons]
    ring

theorem join_length (k : Nat) (l : List String)
    (h : ∀ x ∈ l, x.length = k) :
    (String.join l).length = k * l.length := by
  have hd : (String.join l).length = (String.join l).data.length := rfl
  rw [hd, join_data]
  exact flatten_length_const k l h

theorem join_block (k : Nat) :
    ∀ (l : List String) (n : Nat), (∀ x ∈ l, x.length = k) →
      n < l.length →
      ((String.join l).data.drop (k * n)).take k = (l.getD n "").data := by
  intro l
  induction l with
  | nil => intro n _ hn; simp at hn
  | cons a t ih =>
    intro n h hn
    have ha : a.data.length = k := h a (List.mem_cons_self a t)
    have ht : ∀ x ∈ t, x.length = k := fun x hx => h x (List.mem_cons_of_mem a hx)
    rw [join_data]
    simp only [List.map_cons, List.flatten_cons]
    cases n with
    | zero =>
      simp only [Nat.mul_zero, List.drop_zero]
      rw [List.take_append_eq_append_take, ← ha, List.take_length]
      simp [List.getD_eq_getElem?_getD]
    | succ m =>
      have hm : m < t.length := by simpa using hn
      rw [List.drop_append_eq_append_drop]
      have h1 : List.drop (k * (m + 1)) a.data = [] :=
        List.drop_eq_nil_of_le (by rw [ha]; nlinarith)
      have h2 : k * (m + 1) - a.data.length = k * m := by rw [ha]; ring_nf; omega
      rw [h1, h2, List.nil_append]
      have := ih m ht hm
      rw [join_data] at this
      simpa using this

theorem frame_block (hdr : String) (L : List String) (k n : Nat)
    (h6 : ∀ x ∈ L, x.length = k) (hn : n < L.length) :
    ((hdr ++ String.join L).data.drop (hdr.length + k * n)).take k =
      (L.getD n "").data := by
  rw [String.data_append, List.drop_append_eq_append_drop]
  have hdl : hdr.data.length = hdr.length := rfl
  have h1 : List.drop (hdr.length + k * n) hdr.data = [] :=
    List.drop_eq_nil_of_le (by omega)
  have h2 : hdr.length + k * n - hdr.data.length = k * n := by omega
  rw [h1, h2, List.nil_append]
  exact join_block k L n h6 hn

theorem getD_map_range (f : Nat → String) (T n : Nat) (h : n < T) :
    ((List.range T).map f).getD n "" = f n := by
  rw [List.getD_eq_getElem?_getD, List.getElem?_map, List.getElem?_range h]
  rfl

/-! ### C1: default mode -/

/-- C1: for every `ledsOn` in `[0, totalLeds]`, every 6-hex-digit color and
mode `"default"`, the frame encoder returns a hex string of length
`len(headerString) + 6 * totalLeds` whose first `ledsOn` 6-digit blocks
(LED indices `0 .. ledsOn - 1`) equal `color` and whose remaining blocks
equal `"000000"`. -/
theorem frame_default_blocks (proto color : String) (leds leds_total : Int)
    (hc : color.length = 6) (hx : ∀ c ∈ color.data, (hexDigit c).isSome)
    (h0 : 0 ≤ leds) (h1 : leds ≤ leds_total) :
    ∃ s : String, frameFn "default" proto leds leds_total color = .frame s ∧
      s.length = (header proto).length + 6 * leds_total.toNat ∧
      (∀ c ∈ s.data, (hexDigit c).isSome) ∧
      (∀ n : Nat, (n : Int) < leds →
        (s.data.drop ((header proto).length + 6 * n)).take 6 = color.data) ∧
      (∀ n : Nat, leds ≤ (n : Int) → (n : Int) < leds_total →
        (s.data.drop ((header proto).length + 6 * n)).take 6 =
          ("000000" : String).data) := by
  have hfr : frameFn "default" proto leds leds_total color =
      FrameResult.frame (header proto ++ String.join
        ((List.range leds_total.toNat).map
          (fun n : Nat => if (0 : Int) ≤ (n : Int) ∧ (n : Int) < 0 + leds
            then color else "000000"))) := by
    rfl
  set L := (List.range leds_total.toNat).map
    (fun n : Nat => if (0 : Int) ≤ (n : Int) ∧ (n : Int) < 0 + leds then color
      else "000000") with hL
  have h6 : ∀ x ∈ L, x.length = 6 := by
    intro x hx'
    rw [hL] at hx'
    rcases List.mem_map.1 hx' with ⟨n, _, rfl⟩
    split
    · exact hc
    · rfl
  have hLlen : L.length = leds_total.toNat := by
    rw [hL, List.length_map, List.length_range]
  refine ⟨header proto ++ String.join L, hfr, ?_, ?_, ?_, ?_⟩
  · rw [String.length_append, join_length 6 L h6, hLlen]
  · intro c hcm
    rw [String.data_append] at hcm
    rcases List.mem_append.1 hcm with hch | hcb
    · by_cases hp : proto = "drgb"
      · rw [hp] at hch
        have : c ∈ ['0', '2', 'F', 'F'] := hch
        fin_cases this <;> decide
      · rw [header, if_neg hp] at hch
        simp at hch
    · rw [join_data] at hcb
      rcases List.mem_flatten.1 hcb with ⟨ld, hld, hcl⟩
      rcases List.mem_map.1 hld with ⟨x, hxL, rfl⟩
      rw [hL] at hxL
      rcases List.mem_map.1 hxL with ⟨n, _, rfl⟩
      by_cases hcond : (0 : Int) ≤ (n : Int) ∧ (n : Int) < 0 + leds
      · rw [if_pos hcond] at hcl
        exact hx c hcl
      · rw [if_neg hcond] at hcl
        have : c ∈ ['0', '0', '0', '0', '0', '0'] := hcl
        fin_cases this <;> decide
  · intro n hn
    have hnT : n < L.length := by rw [hLlen]; omega
    rw [frame_block (header proto) L 6 n h6 hnT, hL,
      getD_map_range _ leds_total.toNat n (by omega)]
    rw [if_pos ⟨Int.natCast_nonneg n, by omega⟩]
  · intro n hn1 hn2
    have hnT : n < L.length := by rw [hLlen]; omega
    rw [frame_block (header proto) L 6 n h6 hnT, hL,
      getD_map_range _ leds_total.toNat n (by omega)]
    rw [if_neg (by omega)]

/-- Witness for C1 at `proto = "drgb"`, `color = "ABCDEF"`, `ledsOn = 2`,
`totalLeds = 4`. -/
theorem frame_default_blocks_witness :
    (("ABCDEF" : String).length = 6 ∧ (0 : Int) ≤ 2 ∧ (2 : Int) ≤ 4) ∧
    (∃ s : String, frameFn "default" "drgb" 2 4 "ABCDEF" = .frame s ∧
      s.length = (header "drgb").length + 6 * (4 : Int).toNat ∧
      (∀ c ∈ s.data, (hexDigit c).isSome) ∧
      (∀ n : Nat, (n : Int) < 2 →
        (s.data.drop ((header "drgb").length + 6 * n)).take 6 =
          ("ABCDEF" : String).data) ∧
      (∀ n : Nat, 2 ≤ (n : Int) → (n : Int) < 4 →
        (s.data.drop ((header "drgb").length + 6 * n)).take 6 =
          ("000000" : String).data)) :=
  ⟨⟨by decide, by decide, by decide⟩,
    frame_default_blocks "drgb" "ABCDEF" 2 4 (by decide) (by decide)
      (by decide) (by decide)⟩

/-! ### C2: center mode -/

theorem tdiv_two_eq (d : Int) :
    d.tdiv 2 = if 0 ≤ d then d / 2 else -(-d / 2) := by
  split
  · exact Int.tdiv_eq_ediv (by assumption) (by norm_num)
  · rw [show d.tdiv 2 = -((-d).tdiv 2) by rw [Int.neg_tdiv, neg_neg],
      Int.tdiv_eq_ediv (by omega) (by norm_num)]

/-- For an index `n` in `[0, totalLeds)`, the lit condition computed with
Python truncating division agrees with the one computed with mathematical
floor division: they differ only when `totalLeds - ledsOn` is negative and
odd, and then both intervals cover all of `[0, totalLeds)`. -/
theorem center_start_equiv (leds leds_total n : Int) (h0 : 0 ≤ n)
    (hn : n < leds_total) :
    ((leds_total - leds).tdiv 2 ≤ n ∧ n < (leds_total - leds).tdiv 2 + leds) ↔
      ((leds_total - leds).fdiv 2 ≤ n ∧
        n < (leds_total - leds).fdiv 2 + leds) := by
  rw [tdiv_two_eq, Int.fdiv_eq_ediv _ (by norm_num : (0:Int) ≤ 2)]
  split
  · exact Iff.rfl
  · omega

/-- C2: for every integer `ledsOn` and `totalLeds` with mode `"center"`,
the frame encoder lights exactly the LED indices `n` with
`start ≤ n < start + ledsOn` where `start = floor((totalLeds - ledsOn) / 2)`
under mathematical floor division, including when `ledsOn > totalLeds`, in
which case `start` is the (negative) literal floor result, not clamped
to 0. -/
theorem frame_center_lit (proto color : String) (leds leds_total : Int)
    (hc : color.length = 6) :
    ∃ s : String, frameFn "center" proto leds leds_total color = .frame s ∧
      ∀ n : Nat, (n : Int) < leds_total →
        (s.data.drop ((header proto).length + 6 * n)).take 6 =
          (if (leds_total - leds).fdiv 2 ≤ (n : Int) ∧
              (n : Int) < (leds_total - leds).fdiv 2 + leds
            then color else ("000000" : String)).data := by
  have hfr : frameFn "center" proto leds leds_total color =
      FrameResult.frame (header proto ++ String.join
        ((List.range leds_total.toNat).map
          (fun n : Nat =>
            if (leds_total - leds).tdiv 2 ≤ (n : Int) ∧
                (n : Int) < (leds_total - leds).tdiv 2 + leds
              then color else "000000"))) := by
    rfl
  set L := (List.range leds_total.toNat).map
    (fun n : Nat =>
      if (leds_total - leds).tdiv 2 ≤ (n : Int) ∧
          (n : Int) < (leds_total - leds).tdiv 2 + leds
        then color else "000000") with hL
  have h6 : ∀ x ∈ L, x.length = 6 := by
    intro x hx'
    rw [hL] at hx'
    rcases List.mem_map.1 hx' with ⟨n, _, rfl⟩
    split
    · exact hc
    · rfl
  have hLlen : L.length = leds_total.toNat := by
    rw [hL, List.length_map, List.length_range]
  refine ⟨header proto ++ String.join L, hfr, ?_⟩
  intro n hn
  have hnT : n < L.length := by rw [hLlen]; omega
  rw [frame_block (header proto) L 6 n h6 hnT, hL,
    getD_map_range _ leds_total.toNat n (by omega)]
  have hiff := center_start_equiv leds leds_total (n : Int)
    (Int.natCast_nonneg n) hn
  by_cases hcond : (leds_total - leds).fdiv 2 ≤ (n : Int) ∧
      (n : Int) < (leds_total - leds).fdiv 2 + leds
  · rw [if_pos (hiff.2 hcond), if_pos hcond]
  · rw [if_neg (fun h => hcond (hiff.1 h)), if_neg hcond]

/-- Witness for C2 at the spec example `totalLeds = 100`, `ledsOn = 24`
(`start = 38`, lit indices `38 .. 61`). -/
theorem frame_center_lit_witness :
    (("FF0000" : String).length = 6) ∧
    (∃ s : String, frameFn "center" "rgb" 24 100 "FF0000" = .frame s ∧
      ∀ n : Nat, (n : Int) < 100 →
        (s.data.drop ((header "rgb").length + 6 * n)).take 6 =
          (if ((100 : Int) - 24).fdiv 2 ≤ (n : Int) ∧
              (n : Int) < ((100 : Int) - 24).fdiv 2 + 24
            then "FF0000" else ("000000" : String)).data) :=
  ⟨by decide, frame_center_lit "rgb" "FF0000" 24 100 (by decide)⟩

/-! ### C3: distribute mode -/

theorem frameFn_distribute_eq (proto color : String) (leds leds_total : Int) :
    frameFn "distribute" proto leds leds_total color =
      if leds < 1 then .noFrame
      else if leds_total.tdiv leds = 0 ∧ 0 < leds_total then
        .zeroDivisionError
      else
        .frame (header proto ++ String.join
          ((List.range leds_total.toNat).map
            (fun n : Nat =>
              if (n : Int) % leds_total.tdiv leds = 1 ∨
                  leds_total.tdiv leds < 2
                then color else "000000"))) := by
  rfl

/-- Counterexample to C3 as stated: at `totalLeds = 1`, `ledsOn = 2` the
claim prescribes a frame with LED 0 lit (`m = 0 < 2`), but the code raises
`ZeroDivisionError` (`n % m` with `m = 0`) and produces no frame at all. -/
theorem frame_distribute_claim_counterexample :
    frameFn "distribute" "rgb" 2 1 "FF0000" = .zeroDivisionError ∧
    ∀ s : String, frameFn "distribute" "rgb" 2 1 "FF0000" ≠ .frame s := by
  have h0 : frameFn "distribute" "rgb" 2 1 "FF0000" = .zeroDivisionError :=
    rfl
  refine ⟨h0, fun s h => ?_⟩
  rw [h0] at h
  exact FrameResult.noConfusion h

/-- C3 amended: for mode `"distribute"`, if `ledsOn < 1` the encoder
produces no frame; if `1 ≤ ledsOn` and `0 < totalLeds < ledsOn` (so that
`m = floor(totalLeds / ledsOn) = 0`) it raises `ZeroDivisionError` instead
of producing a frame; and if `1 ≤ ledsOn ≤ totalLeds`, LED index `n`
receives `color` exactly when `(n mod m = 1) or (m < 2)` and `"000000"`
otherwise, for every `n` in `[0, totalLeds)`. -/
theorem frame_distribute_amended (proto color : String)
    (leds leds_total : Int) (hc : color.length = 6) :
    (leds < 1 → frameFn "distribute" proto leds leds_total color = .noFrame) ∧
    (1 ≤ leds → 0 < leds_total → leds_total < leds →
      frameFn "distribute" proto leds leds_total color =
        .zeroDivisionError) ∧
    (1 ≤ leds → leds ≤ leds_total →
      ∃ s : String,
        frameFn "distribute" proto leds leds_total color = .frame s ∧
        ∀ n : Nat, (n : Int) < leds_total →
          (s.data.drop ((header proto).length + 6 * n)).take 6 =
            (if (n : Int) % (leds_total / leds) = 1 ∨ leds_total / leds < 2
              then color else ("000000" : String)).data) := by
  refine ⟨?_, ?_, ?_⟩
  · intro h
    rw [frameFn_distribute_eq, if_pos h]
  · intro h1 h2 h3
    have hm : leds_total.tdiv leds = 0 := by
      rw [Int.tdiv_eq_ediv (by omega) (by omega)]
      exact Int.ediv_eq_zero_of_lt (by omega) h3
    rw [frameFn_distribute_eq, if_neg (by omega), if_pos ⟨hm, h2⟩]
  · intro h1 h2
    have he : leds_total.tdiv leds = leds_total / leds :=
      Int.tdiv_eq_ediv (by omega) (by omega)
    have hm1 : 1 ≤ leds_total / leds := by
      rw [Int.le_ediv_iff_mul_le (by omega)]
      omega
    have hcond : ¬(leds_total.tdiv leds = 0 ∧ 0 < leds_total) := by
      rw [he]
      omega
    have hfr : frameFn "distribute" proto leds leds_total color =
        FrameResult.frame (header proto ++ String.join
          ((List.range leds_total.toNat).map
            (fun n : Nat =>
              if (n : Int) % leds_total.tdiv leds = 1 ∨
                  leds_total.tdiv leds < 2
                then color else "000000"))) := by
      rw [frameFn_distribute_eq, if_neg (by omega), if_neg hcond]
    rw [he] at hfr
    set L := (List.range leds_total.toNat).map
      (fun n : Nat =>
        if (n : Int) % (leds_total / leds) = 1 ∨ leds_total / leds < 2
          then color else "000000") with hL
    have h6 : ∀ x ∈ L, x.length = 6 := by
      intro x hx'
      rw [hL] at hx'
      rcases List.mem_map.1 hx' with ⟨n, _, rfl⟩
      split
      · exact hc
      · rfl
    have hLlen : L.length = leds_total.toNat := by
      rw [hL, List.length_map, List.length_range]
    refine ⟨header proto ++ String.join L, hfr, ?_⟩
    intro n hn
    have hnT : n < L.length := by rw [hLlen]; omega
    rw [frame_block (header proto) L 6 n h6 hnT, hL,
      getD_map_range _ leds_total.toNat n (by omega)]

/-- Witness for C3 amended, exercising all three branches at the spec
examples: `ledsOn = 0` (no frame), `totalLeds = 1 < ledsOn = 2`
(`ZeroDivisionError`), and `totalLeds = 100`, `ledsOn = 50`
(`m = 2`, lit at every odd `n`). -/
theorem frame_distribute_amended_witness :
    (((0 : Int) < 1 ∧ frameFn "distribute" "rgb" 0 100 "FF0000" =
        .noFrame) ∧
      ((1 : Int) ≤ 2 ∧ (0 : Int) < 1 ∧ (1 : Int) < 2 ∧
        frameFn "distribute" "rgb" 2 1 "AB0012" = .zeroDivisionError)) ∧
    ((1 : Int) ≤ 50 ∧ (50 : Int) ≤ 100 ∧
      ∃ s : String,
        frameFn "distribute" "rgb" 50 100 "FF0000" = .frame s ∧
        ∀ n : Nat, (n : Int) < 100 →
          (s.data.drop ((header "rgb").length + 6 * n)).take 6 =
            (if (n : Int) % ((100 : Int) / 50) = 1 ∨ (100 : Int) / 50 < 2
              then "FF0000" else ("000000" : String)).data) :=
  ⟨⟨⟨by decide,
      (frame_distribute_amended "rgb" "FF0000" 0 100 (by decide)).1
        (by decide)⟩,
    ⟨by decide, by decide, by decide,
      (frame_distribute_amended "rgb" "AB0012" 2 1 (by decide)).2.1
        (by decide) (by decide) (by decide)⟩⟩,
   ⟨by decide, by decide,
    (frame_distribute_amended "rgb" "FF0000" 50 100 (by decide)).2.2
      (by decide) (by decide)⟩⟩

/-! ### C7: protocol header -/

/-- Every composed frame is the protocol header followed by a body. -/
theorem frame_starts_with_header (mode proto color : String)
    (leds leds_total : Int) (s : String)
    (h : frameFn mode proto leds leds_total color = .frame s) :
    ∃ body : String, s = header proto ++ body := by
  simp only [frameFn] at h
  split at h
  · exact ⟨_, (FrameResult.frame.injEq _ _ ▸ h).symm⟩
  · split at h
    · split at h
      · exact absurd h (by simp)
      · split at h
        · exact absurd h (by simp)
        · exact ⟨_, (FrameResult.frame.injEq _ _ ▸ h).symm⟩
    · refine ⟨"", ?_⟩
      rw [String.append_empty]
      exact (FrameResult.frame.injEq _ _ ▸ h).symm

/-- C7: for every mode, color and `ledsOn`, a frame encoded with protocol
variant `"drgb"` begins with the hex digits `"02"` then `"FF"` (decoding to
bytes `0x02, 0xFF`), and a frame encoded with any other protocol variant
has no header: its body begins at offset 0. -/
theorem frame_header_drgb_spec :
    (header "drgb" = "02FF" ∧ hexToBytes "02FF" = some [2, 255]) ∧
    (∀ proto : String, proto ≠ "drgb" → header proto = "") ∧
    (∀ mode color : String, ∀ leds leds_total : Int, ∀ s : String,
      frameFn mode "drgb" leds leds_total color = .frame s →
      s.data.take 4 = ['0', '2', 'F', 'F']) ∧
    (∀ mode proto color : String, ∀ leds leds_total : Int, ∀ s : String,
      proto ≠ "drgb" →
      frameFn mode proto leds leds_total color = .frame s →
      ∃ body : String, s = body) := by
  refine ⟨⟨by decide, by decide⟩, ?_, ?_, ?_⟩
  · intro proto h
    rw [header, if_neg h]
  · intro mode color leds leds_total s h
    rcases frame_starts_with_header mode "drgb" color leds leds_total s h
      with ⟨body, rfl⟩
    have hh : header "drgb" = "02FF" := by decide
    rw [hh, String.data_append, List.take_append_eq_append_take]
    have h4 : ("02FF" : String).data.length = 4 := by decide
    rw [show ("02FF" : String).data.take 4 = ("02FF" : String).data from
        h4 ▸ List.take_length _,
      h4]
    simp
  · intro mode proto color leds leds_total s hp h
    rcases frame_starts_with_header mode proto color leds leds_total s h
      with ⟨body, rfl⟩
    rw [header, if_neg hp]
    exact ⟨body, by rw [String.empty_append]⟩

/-- Witness for C7: a concrete `"drgb"` frame starts with `"02FF"`, and a
concrete `"rgb"` frame is all body. -/
theorem frame_header_drgb_spec_witness :
    (frameFn "default" "drgb" 1 1 "ABCDEF" = .frame "02FFABCDEF" ∧
      ("02FFABCDEF" : String).data.take 4 = ['0', '2', 'F', 'F']) ∧
    (("rgb" : String) ≠ "drgb" ∧
      frameFn "default" "rgb" 1 1 "ABCDEF" = .frame "ABCDEF" ∧
      ∃ body : String, ("ABCDEF" : String) = body) := by
  have h1 : frameFn "default" "drgb" 1 1 "ABCDEF" = .frame "02FFABCDEF" := by
    decide
  have h2 : frameFn "default" "rgb" 1 1 "ABCDEF" = .frame "ABCDEF" := by
    decide
  exact ⟨⟨h1, frame_header_drgb_spec.2.2.1 "default" "ABCDEF" 1 1
      "02FFABCDEF" h1⟩,
    ⟨by decide, h2, frame_header_drgb_spec.2.2.2 "default" "rgb" "ABCDEF"
      1 1 "ABCDEF" (by decide) h2⟩⟩

/-! ### Shared facts about the click handler -/

theorem pyIndex_of_nonneg_lt (l : List String) (i : Int) (h0 : 0 ≤ i)
    (h : i < (l.length : Int)) :
    pyIndex l i = some (l.getD i.toNat "") := by
  have hlt : i.toNat < l.length := by omega
  rw [pyIndex, if_pos h0, List.get?_eq_getElem?, List.getElem?_eq_getElem hlt,
    List.getD_eq_getElem?_getD, List.getElem?_eq_getElem hlt]
  rfl

/-- Under the data-model invariant `ledsOn ≤ totalLeds`, the encoder never
raises: the `ZeroDivisionError` needs `floor(totalLeds / ledsOn) = 0` with
`1 ≤ ledsOn` and `0 < totalLeds`, which forces `totalLeds < ledsOn`. -/
theorem frameFn_not_zeroDiv (mode proto color : String)
    (leds leds_total : Int) (h : leds ≤ leds_total) :
    isZeroDiv (frameFn mode proto leds leds_total color) = false := by
  simp only [frameFn]
  split
  · rfl
  · split
    · split
      · rfl
      · split
        · rename_i hnlt hz
          exfalso
          have he : leds_total.tdiv leds = leds_total / leds :=
            Int.tdiv_eq_ediv (by omega) (by omega)
          have h1 : 1 ≤ leds_total / leds := by
            rw [Int.le_ediv_iff_mul_le (by omega)]
            omega
          omega
        · rfl
    · rfl

theorem sendFrameCalc_not_zeroDiv (cfg : Config) (st : State)
    (h : st.leds ≤ cfg.leds_total) :
    isZeroDiv (sendFrameCalc cfg st) = false :=
  frameFn_not_zeroDiv cfg.mode cfg.proto st.color st.leds cfg.leds_total h

/-- The button-2 loop only rewrites `color`: it preserves `leds` and
`color_idx`, and under the invariant it never raises. -/
theorem pickerLoop_facts (cfg : Config) :
    ∀ (lines : List String) (st : State),
      (pickerLoop cfg lines st).1.leds = st.leds ∧
      (pickerLoop cfg lines st).1.color_idx = st.color_idx ∧
      (st.leds ≤ cfg.leds_total → (pickerLoop cfg lines st).2.2 = false) := by
  intro lines
  induction lines with
  | nil => intro st; exact ⟨rfl, rfl, fun _ => rfl⟩
  | cons c rest ih =>
    intro st
    simp only [pickerLoop]
    by_cases hz : isZeroDiv (sendFrameCalc cfg { st with color := rstripNl c })
    · rw [if_pos hz]
      refine ⟨rfl, rfl, fun h => ?_⟩
      rw [sendFrameCalc_not_zeroDiv cfg { st with color := rstripNl c } h]
        at hz
      exact absurd hz (by simp)
    · rw [if_neg hz]
      obtain ⟨hleds, hidx, hraise⟩ := ih { st with color := rstripNl c }
      exact ⟨hleds, hidx, fun h => hraise h⟩

/-- Effect of a button-1 click with `color_idx` in range: the index wraps
circularly, the color is looked up at the new index, and one send is
attempted. -/
theorem on_click_one (cfg : Config) (picker : List String) (st : State)
    (h0 : 0 ≤ st.color_idx)
    (h1 : st.color_idx < (cfg.colors.length : Int)) :
    ∃ st1 : State,
      st1.color_idx = (st.color_idx + 1) % (cfg.colors.length : Int) ∧
      st1.color = cfg.colors.getD st1.color_idx.toNat "" ∧
      st1.leds = st.leds ∧
      on_click cfg picker st 1 =
        { state := st1, emits := [sendFrameCalc cfg st1],
          raised := isZeroDiv (sendFrameCalc cfg st1) } := by
  by_cases hw : st.color_idx + 1 > (cfg.colors.length : Int) - 1
  · have hlen : st.color_idx + 1 = (cfg.colors.length : Int) := by omega
    have hmod : (st.color_idx + 1) % (cfg.colors.length : Int) = 0 := by
      rw [hlen, Int.emod_self]
    refine ⟨⟨st.leds, cfg.colors.getD ((0 : Int)).toNat "", 0⟩,
      by simp [hmod], rfl, rfl, ?_⟩
    unfold on_click
    rw [if_pos (show (1 : Int) = 1 by rfl)]
    simp only []
    rw [if_pos hw, pyIndex_of_nonneg_lt _ _ (by omega) (by omega)]
  · have hmod : (st.color_idx + 1) % (cfg.colors.length : Int) =
        st.color_idx + 1 :=
      Int.emod_eq_of_lt (by omega) (by omega)
    refine ⟨⟨st.leds, cfg.colors.getD (st.color_idx + 1).toNat "",
      st.color_idx + 1⟩, by simp [hmod], rfl, rfl, ?_⟩
    unfold on_click
    rw [if_pos (show (1 : Int) = 1 by rfl)]
    simp only []
    rw [if_neg hw, pyIndex_of_nonneg_lt _ _ (by omega) (by omega)]

/-- A button-1 click never changes `leds`, in-range index or not. -/
theorem on_click_one_leds (cfg : Config) (picker : List String) (st : State) :
    (on_click cfg picker st 1).state.leds = st.leds := by
  unfold on_click
  rw [if_pos (show (1 : Int) = 1 by rfl)]
  simp only []
  rcases hpy : pyIndex cfg.colors
      (if st.color_idx + 1 > (cfg.colors.length : Int) - 1 then 0
        else st.color_idx + 1) with _ | c
  · rfl
  · rfl

/-- Under the data-model invariants, no click raises, so `_store_state`
is always reached. -/
theorem on_click_not_raised (cfg : Config) (picker : List String)
    (st : State) (b : Int) (h : st.leds ≤ cfg.leds_total)
    (h0 : 0 ≤ st.color_idx)
    (h1 : st.color_idx < (cfg.colors.length : Int)) :
    (on_click cfg picker st b).raised = false := by
  by_cases hb1 : b = 1
  · subst hb1
    obtain ⟨st1, _, _, hleds, heq⟩ := on_click_one cfg picker st h0 h1
    rw [heq]
    exact sendFrameCalc_not_zeroDiv cfg st1 (by omega)
  by_cases hb2 : b = 2
  · subst hb2
    unfold on_click
    norm_num
    exact (pickerLoop_facts cfg picker st).2.2 h
  by_cases hb3 : b = 3
  · subst hb3
    unfold on_click
    norm_num
    rw [if_neg (by
      rw [sendFrameCalc_not_zeroDiv cfg { st with color := "000000" } h]
      simp)]
  by_cases hb4 : b = 4
  · subst hb4
    unfold on_click
    norm_num
    split
    · exact sendFrameCalc_not_zeroDiv cfg _ (by
        rename_i hlt
        show st.leds + 1 ≤ cfg.leds_total
        omega)
    · rfl
  by_cases hb5 : b = 5
  · subst hb5
    unfold on_click
    norm_num
    split
    · exact sendFrameCalc_not_zeroDiv cfg _ (by
        show st.leds - 1 ≤ cfg.leds_total
        omega)
    · rfl
  · unfold on_click
    rw [if_neg hb1, if_neg hb2, if_neg hb3, if_neg hb4, if_neg hb5]

/-! ### C4: button 1 cycles the palette -/

/-- The class-attribute defaults of `Py3status` (lines 40-50) with a
concrete host-supplied `COLOR_GOOD`. -/
def demoConfig : Config :=
  { name := "light", host := "localhost", port := 2342, proto := "rgb",
    leds_total := 100, mode := "default",
    colors := ["#68D74C", "#E05B22", "#C60D12"],
    COLOR_GOOD := "#00FF00" }

/-- A fresh state after `post_config_hook` with empty storage:
`leds = 23`, `color_idx = 0`. -/
def demoState : State :=
  { leds := 23, color := "#68D74C", color_idx := 0 }

/-- The state after `k` successive button-1 clicks on the demo setup. -/
def cycleState (k : Nat) : State :=
  Nat.iterate (fun s0 => (on_click demoConfig [] s0 1).state) k demoState

/-- C4: for every state with `colorIndex` in `[0, paletteSize - 1]`, a
button-1 click sets `colorIndex` to `(colorIndex + 1) mod paletteSize`,
sets `currentColor` to `palette[newIndex]`, and emits exactly one frame;
iterating from index 0 over a 3-color palette yields the cycle
`0 → 1 → 2 → 0 → 1`, the color following the index. -/
theorem click_button1_cycles_palette (cfg : Config) (picker : List String)
    (st : State) (h0 : 0 ≤ st.color_idx)
    (h1 : st.color_idx ≤ (cfg.colors.length : Int) - 1) :
    ((on_click cfg picker st 1).state.color_idx =
        (st.color_idx + 1) % (cfg.colors.length : Int) ∧
      (on_click cfg picker st 1).state.color =
        cfg.colors.getD (on_click cfg picker st 1).state.color_idx.toNat "" ∧
      (on_click cfg picker st 1).emits.length = 1) ∧
    ((List.range 5).map (fun k => (cycleState k).color_idx) =
        [0, 1, 2, 0, 1] ∧
      (List.range 5).map (fun k => (cycleState k).color) =
        ["#68D74C", "#E05B22", "#C60D12", "#68D74C", "#E05B22"]) := by
  obtain ⟨st1, hidx, hcol, _, heq⟩ :=
    on_click_one cfg picker st h0 (by omega)
  refine ⟨⟨?_, ?_, ?_⟩, by decide, by decide⟩
  · rw [heq, hidx]
  · rw [heq]
    exact hcol
  · rw [heq]
    rfl

/-- Witness for C4 at the demo palette, index 2 wrapping to 0. -/
theorem click_button1_cycles_palette_witness :
    ((0 : Int) ≤ 2 ∧ (2 : Int) ≤ (((["#68D74C", "#E05B22", "#C60D12"] :
        List String).length : Int)) - 1) ∧
    (((on_click demoConfig [] ⟨23, "#C60D12", 2⟩ 1).state.color_idx =
        ((2 : Int) + 1) % ((demoConfig.colors.length : Int)) ∧
      (on_click demoConfig [] ⟨23, "#C60D12", 2⟩ 1).state.color =
        demoConfig.colors.getD
          (on_click demoConfig [] ⟨23, "#C60D12", 2⟩ 1).state.color_idx.toNat
          "" ∧
      (on_click demoConfig [] ⟨23, "#C60D12", 2⟩ 1).emits.length = 1) ∧
    ((List.range 5).map (fun k => (cycleState k).color_idx) =
        [0, 1, 2, 0, 1] ∧
      (List.range 5).map (fun k => (cycleState k).color) =
        ["#68D74C", "#E05B22", "#C60D12", "#68D74C", "#E05B22"])) :=
  ⟨⟨by decide, by decide⟩,
    click_button1_cycles_palette demoConfig [] ⟨23, "#C60D12", 2⟩
      (by decide) (by decide)⟩

/-! ### Branch equations for the remaining buttons -/

theorem on_click_two (cfg : Config) (picker : List String) (st : State) :
    on_click cfg picker st 2 =
      { state := (pickerLoop cfg picker st).1,
        emits := (pickerLoop cfg picker st).2.1,
        raised := (pickerLoop cfg picker st).2.2 } := by
  unfold on_click
  rw [if_neg (by decide : ¬(2 : Int) = 1), if_pos (show (2 : Int) = 2 by rfl)]

theorem on_click_three (cfg : Config) (picker : List String) (st : State) :
    on_click cfg picker st 3 =
      if isZeroDiv (sendFrameCalc cfg ⟨st.leds, "000000", st.color_idx⟩) then
        { state := ⟨st.leds, "000000", st.color_idx⟩,
          emits := [sendFrameCalc cfg ⟨st.leds, "000000", st.color_idx⟩],
          raised := true }
      else
        { state := ⟨st.leds, cfg.COLOR_GOOD, st.color_idx⟩,
          emits := [sendFrameCalc cfg ⟨st.leds, "000000", st.color_idx⟩],
          raised := false } := by
  unfold on_click
  rw [if_neg (by decide : ¬(3 : Int) = 1), if_neg (by decide : ¬(3 : Int) = 2),
    if_pos (show (3 : Int) = 3 by rfl)]

theorem on_click_four (cfg : Config) (picker : List String) (st : State) :
    on_click cfg picker st 4 =
      if st.leds < cfg.leds_total then
        { state := ⟨st.leds + 1, st.color, st.color_idx⟩,
          emits := [sendFrameCalc cfg ⟨st.leds + 1, st.color, st.color_idx⟩],
          raised :=
            isZeroDiv (sendFrameCalc cfg ⟨st.leds + 1, st.color,
              st.color_idx⟩) }
      else { state := st, emits := [], raised := false } := by
  unfold on_click
  rw [if_neg (by decide : ¬(4 : Int) = 1), if_neg (by decide : ¬(4 : Int) = 2),
    if_neg (by decide : ¬(4 : Int) = 3), if_pos (show (4 : Int) = 4 by rfl)]

theorem on_click_five (cfg : Config) (picker : List String) (st : State) :
    on_click cfg picker st 5 =
      if st.leds > 0 then
        { state := ⟨st.leds - 1, st.color, st.color_idx⟩,
          emits := [sendFrameCalc cfg ⟨st.leds - 1, st.color, st.color_idx⟩],
          raised :=
            isZeroDiv (sendFrameCalc cfg ⟨st.leds - 1, st.color,
              st.color_idx⟩) }
      else { state := st, emits := [], raised := false } := by
  unfold on_click
  rw [if_neg (by decide : ¬(5 : Int) = 1), if_neg (by decide : ¬(5 : Int) = 2),
    if_neg (by decide : ¬(5 : Int) = 3), if_neg (by decide : ¬(5 : Int) = 4),
    if_pos (show (5 : Int) = 5 by rfl)]

theorem on_click_other (cfg : Config) (picker : List String) (st : State)
    (b : Int) (hb1 : b ≠ 1) (hb2 : b ≠ 2) (hb3 : b ≠ 3) (hb4 : b ≠ 4)
    (hb5 : b ≠ 5) :
    on_click cfg picker st b =
      { state := st, emits := [], raised := false } := by
  unfold on_click
  rw [if_neg hb1, if_neg hb2, if_neg hb3, if_neg hb4, if_neg hb5]

/-! ### C5: the `0 ≤ ledsOn ≤ totalLeds` invariant and buttons 4/5 -/

/-- C5: the invariant `0 ≤ ledsOn ≤ totalLeds` is preserved by every click
event; a button-4 click at `ledsOn = totalLeds` leaves the state unchanged
and emits no frame; a button-5 click at `ledsOn = 0` leaves the state
unchanged and emits no frame; and in all other cases buttons 4 and 5
change `ledsOn` by exactly `+1` or `-1` respectively and emit one
frame. -/
theorem click_leds_invariant_and_steps :
    (∀ (cfg : Config) (picker : List String) (st : State) (b : Int),
      0 ≤ st.leds → st.leds ≤ cfg.leds_total →
      0 ≤ (on_click cfg picker st b).state.leds ∧
      (on_click cfg picker st b).state.leds ≤ cfg.leds_total) ∧
    (∀ (cfg : Config) (picker : List String) (st : State),
      st.leds = cfg.leds_total →
      on_click cfg picker st 4 =
        { state := st, emits := [], raised := false }) ∧
    (∀ (cfg : Config) (picker : List String) (st : State),
      st.leds = 0 →
      on_click cfg picker st 5 =
        { state := st, emits := [], raised := false }) ∧
    (∀ (cfg : Config) (picker : List String) (st : State),
      st.leds < cfg.leds_total →
      (on_click cfg picker st 4).state.leds = st.leds + 1 ∧
      (on_click cfg picker st 4).emits.length = 1) ∧
    (∀ (cfg : Config) (picker : List String) (st : State),
      0 < st.leds →
      (on_click cfg picker st 5).state.leds = st.leds - 1 ∧
      (on_click cfg picker st 5).emits.length = 1) := by
  refine ⟨?_, ?_, ?_, ?_, ?_⟩
  · intro cfg picker st b hl hu
    by_cases hb1 : b = 1
    · subst hb1
      rw [on_click_one_leds]
      omega
    by_cases hb2 : b = 2
    · subst hb2
      rw [on_click_two]
      have := (pickerLoop_facts cfg picker st).1
      simp only []
      omega
    by_cases hb3 : b = 3
    · subst hb3
      have h3 : (on_click cfg picker st 3).state.leds = st.leds := by
        rw [on_click_three]
        split
        · rfl
        · rfl
      omega
    by_cases hb4 : b = 4
    · subst hb4
      rw [on_click_four]
      split
      · rename_i hlt
        constructor
        · show 0 ≤ st.leds + 1
          omega
        · show st.leds + 1 ≤ cfg.leds_total
          omega
      · exact ⟨hl, hu⟩
    by_cases hb5 : b = 5
    · subst hb5
      rw [on_click_five]
      split
      · rename_i hgt
        constructor
        · show 0 ≤ st.leds - 1
          omega
        · show st.leds - 1 ≤ cfg.leds_total
          omega
      · exact ⟨hl, hu⟩
    · rw [on_click_other cfg picker st b hb1 hb2 hb3 hb4 hb5]
      exact ⟨hl, hu⟩
  · intro cfg picker st h
    rw [on_click_four, if_neg (by omega)]
  · intro cfg picker st h
    rw [on_click_five, if_neg (by omega)]
  · intro cfg picker st h
    rw [on_click_four, if_pos h]
    exact ⟨rfl, rfl⟩
  · intro cfg picker st h
    rw [on_click_five, if_pos h]
    exact ⟨rfl, rfl⟩

/-- Witness for C5: the demo setup at `leds = 23` (buttons 4 and 5 step by
one), at `leds = 100 = leds_total` (button 4 no-op) and at `leds = 0`
(button 5 no-op). -/
theorem click_leds_invariant_and_steps_witness :
    ((0 : Int) ≤ 23 ∧ (23 : Int) ≤ demoConfig.leds_total ∧
      0 ≤ (on_click demoConfig [] demoState 4).state.leds ∧
      (on_click demoConfig [] demoState 4).state.leds ≤
        demoConfig.leds_total) ∧
    ((⟨100, "#68D74C", 0⟩ : State).leds = demoConfig.leds_total ∧
      on_click demoConfig [] ⟨100, "#68D74C", 0⟩ 4 =
        { state := ⟨100, "#68D74C", 0⟩, emits := [], raised := false }) ∧
    ((⟨0, "#68D74C", 0⟩ : State).leds = 0 ∧
      on_click demoConfig [] ⟨0, "#68D74C", 0⟩ 5 =
        { state := ⟨0, "#68D74C", 0⟩, emits := [], raised := false }) ∧
    ((23 : Int) < demoConfig.leds_total ∧
      (on_click demoConfig [] demoState 4).state.leds = 23 + 1 ∧
      (on_click demoConfig [] demoState 4).emits.length = 1) ∧
    ((0 : Int) < 23 ∧
      (on_click demoConfig [] demoState 5).state.leds = 23 - 1 ∧
      (on_click demoConfig [] demoState 5).emits.length = 1) :=
  ⟨⟨by decide, by decide,
      click_leds_invariant_and_steps.1 demoConfig [] demoState 4
        (by decide) (by decide)⟩,
    ⟨by decide,
      click_leds_invariant_and_steps.2.1 demoConfig [] ⟨100, "#68D74C", 0⟩
        (by decide)⟩,
    ⟨by decide,
      click_leds_invariant_and_steps.2.2.1 demoConfig [] ⟨0, "#68D74C", 0⟩
        (by decide)⟩,
    ⟨by decide,
      click_leds_invariant_and_steps.2.2.2.1 demoConfig [] demoState
        (by decide)⟩,
    ⟨by decide,
      click_leds_invariant_and_steps.2.2.2.2 demoConfig [] demoState
        (by decide)⟩⟩

/-! ### C6: button 3 sends black, then restores the good color -/

/-- C6: for every state (within the `ledsOn ≤ totalLeds` data-model
invariant), a button-3 click emits exactly one frame encoded with the
all-zero color `"000000"`, and after the click the stored `currentColor`
equals the configured default/good color — not all-zero, provided the host
color is not all-zero — while `ledsOn` and `colorIndex` are unchanged. -/
theorem click_button3_off_then_good (cfg : Config) (picker : List String)
    (st : State) (h : st.leds ≤ cfg.leds_total)
    (hg : cfg.COLOR_GOOD ≠ "000000") :
    (on_click cfg picker st 3).emits =
      [frameFn cfg.mode cfg.proto st.leds cfg.leds_total "000000"] ∧
    (on_click cfg picker st 3).state.color = cfg.COLOR_GOOD ∧
    (on_click cfg picker st 3).state.color ≠ "000000" ∧
    (on_click cfg picker st 3).state.leds = st.leds ∧
    (on_click cfg picker st 3).state.color_idx = st.color_idx := by
  have hz : isZeroDiv (sendFrameCalc cfg ⟨st.leds, "000000",
      st.color_idx⟩) = false :=
    sendFrameCalc_not_zeroDiv cfg ⟨st.leds, "000000", st.color_idx⟩ h
  rw [on_click_three, if_neg (by rw [hz]; exact Bool.false_ne_true)]
  exact ⟨rfl, rfl, hg, rfl, rfl⟩

/-- Witness for C6 on the demo setup. -/
theorem click_button3_off_then_good_witness :
    ((23 : Int) ≤ demoConfig.leds_total ∧
      demoConfig.COLOR_GOOD ≠ "000000") ∧
    ((on_click demoConfig [] demoState 3).emits =
      [frameFn demoConfig.mode demoConfig.proto 23 demoConfig.leds_total
        "000000"] ∧
    (on_click demoConfig [] demoState 3).state.color =
      demoConfig.COLOR_GOOD ∧
    (on_click demoConfig [] demoState 3).state.color ≠ "000000" ∧
    (on_click demoConfig [] demoState 3).state.leds = 23 ∧
    (on_click demoConfig [] demoState 3).state.color_idx = 0) :=
  ⟨⟨by decide, by decide⟩,
    click_button3_off_then_good demoConfig [] demoState (by decide)
      (by decide)⟩

/-! ### C9: unknown buttons and state persistence -/

/-- C9: for every button id outside `{1, 2, 3, 4, 5}`, a click leaves
`ledsOn`, `currentColor` and `colorIndex` unchanged and emits no frame;
and after every click event from a state satisfying the data-model
invariants (`ledsOn ≤ totalLeds`, `colorIndex` in range), whatever branch
was taken, all three of `ledsOn`, `currentColor` and `colorIndex` are
written back to durable storage. -/
theorem click_other_noop_and_persist :
    (∀ (cfg : Config) (picker : List String) (st : State) (b : Int),
      b ≠ 1 → b ≠ 2 → b ≠ 3 → b ≠ 4 → b ≠ 5 →
      on_click cfg picker st b =
        { state := st, emits := [], raised := false }) ∧
    (∀ (cfg : Config) (picker : List String) (st : State) (b : Int),
      st.leds ≤ cfg.leds_total → 0 ≤ st.color_idx →
      st.color_idx < (cfg.colors.length : Int) →
      store_state (on_click cfg picker st b) =
        some ((on_click cfg picker st b).state.leds,
          (on_click cfg picker st b).state.color,
          (on_click cfg picker st b).state.color_idx)) := by
  constructor
  · intro cfg picker st b hb1 hb2 hb3 hb4 hb5
    exact on_click_other cfg picker st b hb1 hb2 hb3 hb4 hb5
  · intro cfg picker st b h h0 h1
    have hr : (on_click cfg picker st b).raised = false :=
      on_click_not_raised cfg picker st b h h0 h1
    rw [store_state, if_neg (by rw [hr]; exact Bool.false_ne_true)]

/-- Witness for C9: button 9 is a no-op on the demo setup, and a button-1
click persists the updated triple. -/
theorem click_other_noop_and_persist_witness :
    (((9 : Int) ≠ 1 ∧ (9 : Int) ≠ 2 ∧ (9 : Int) ≠ 3 ∧ (9 : Int) ≠ 4 ∧
        (9 : Int) ≠ 5) ∧
      on_click demoConfig [] demoState 9 =
        { state := demoState, emits := [], raised := false }) ∧
    (((23 : Int) ≤ demoConfig.leds_total ∧ (0 : Int) ≤ 0 ∧
        (0 : Int) < (demoConfig.colors.length : Int)) ∧
      store_state (on_click demoConfig [] demoState 1) =
        some ((on_click demoConfig [] demoState 1).state.leds,
          (on_click demoConfig [] demoState 1).state.color,
          (on_click demoConfig [] demoState 1).state.color_idx)) :=
  ⟨⟨⟨by decide, by decide, by decide, by decide, by decide⟩,
      click_other_noop_and_persist.1 demoConfig [] demoState 9 (by decide)
        (by decide) (by decide) (by decide) (by decide)⟩,
    ⟨⟨by decide, by decide, by decide⟩,
      click_other_noop_and_persist.2 demoConfig [] demoState 1 (by decide)
        (by decide) (by decide)⟩⟩

/-! ### C8: sending with no frame -/

/-- The demo configuration switched to distribute mode. -/
def distDemoConfig : Config :=
  { demoConfig with mode := "distribute" }

/-- Counterexample to C8 as stated: with mode `"distribute"` and
`ledsOn = 0` the encoder returns no frame and `_send_frame` attempts no
transmission and raises nothing — but `bytes.fromhex(None)` raises a
`TypeError` inside the `try` block, which **is** logged at `LOG_ERROR`
severity (line 209), contradicting "no error-severity log is
produced". -/
theorem send_no_frame_counterexample :
    (send_frame distDemoConfig ⟨0, "FF0000", 0⟩).sent = [] ∧
    (send_frame distDemoConfig ⟨0, "FF0000", 0⟩).raised = false ∧
    (send_frame distDemoConfig ⟨0, "FF0000", 0⟩).errorLogs ≠ [] := by
  refine ⟨rfl, rfl, ?_⟩
  intro h
  exact List.noConfusion h

/-- C8 amended: when the frame encoder produces no frame (mode
`"distribute"` with `ledsOn < 1`), the send operation attempts no
transmission and nothing is raised to the caller, but the `TypeError`
from hex-decoding the absent frame is caught and logged at error
severity. -/
theorem send_no_frame_amended (cfg : Config) (st : State)
    (hm : cfg.mode = "distribute") (hl : st.leds < 1) :
    (send_frame cfg st).sent = [] ∧
    (send_frame cfg st).raised = false ∧
    (send_frame cfg st).errorLogs =
      ["Failed to contact light: TypeError"] := by
  have hf : frameFn cfg.mode cfg.proto st.leds cfg.leds_total st.color =
      .noFrame := by
    rw [hm, frameFn_distribute_eq, if_pos hl]
  rw [send_frame, hf]
  exact ⟨rfl, rfl, rfl⟩

/-- Witness for C8 amended at the distribute-mode demo setup. -/
theorem send_no_frame_amended_witness :
    (distDemoConfig.mode = "distribute" ∧ (0 : Int) < 1) ∧
    ((send_frame distDemoConfig ⟨0, "FF0000", 0⟩).sent = [] ∧
      (send_frame distDemoConfig ⟨0, "FF0000", 0⟩).raised = false ∧
      (send_frame distDemoConfig ⟨0, "FF0000", 0⟩).errorLogs =
        ["Failed to contact light: TypeError"]) :=
  ⟨⟨by decide, by decide⟩,
    send_no_frame_amended distDemoConfig ⟨0, "FF0000", 0⟩ (by decide)
      (by decide)⟩

/-! ### C10: restoring `leds` from storage -/

/-- C10: on startup, a persisted `ledsOn` value of 0 is treated the same
as absent storage and replaced by the default 23 — Python's `if not
self.leds` is taken both for `None` and for `0` — so a state with zero lit
LEDs does not survive a restart, whereas every persisted value `≥ 1` is
restored exactly as stored. -/
theorem restore_leds_spec :
    restore_leds none = 23 ∧
    restore_leds (some 0) = 23 ∧
    restore_leds (some 0) = restore_leds none ∧
    ∀ v : Int, 1 ≤ v → restore_leds (some v) = v := by
  refine ⟨rfl, rfl, rfl, ?_⟩
  intro v hv
  simp only [restore_leds]
  rw [if_neg (by omega)]

/-- Witness for C10 at the stored value 7. -/
theorem restore_leds_spec_witness :
    (1 : Int) ≤ 7 ∧ restore_leds (some 7) = 7 :=
  ⟨by decide, restore_leds_spec.2.2.2 7 (by decide)⟩

end Lights
